import Mathlib

/-!
Shallow embedding of the retrieval subsystem of `backend/retrieval/store.py`:
the portfolio store (mtime-cached loader), the keyword router, the dense
retriever wrapper, the context selector and the link extractor.

JSON values are modelled by an inductive `Json` (numbers as integers; no
claim involves floating point).  `json.loads` is modelled by a fueled
recursive-descent parser `jsonLoads`, `json.dumps(..., ensure_ascii=False,
indent=2)` by `dumps`.  Python string containment (`word in q`) is `pyIn`,
Python `str()` of a parsed-JSON value is `pyStr`.
-/

inductive Json where
  | null : Json
  | bool : Bool → Json
  | num : Int → Json
  | str : String → Json
  | arr : List Json → Json
  | obj : List (String × Json) → Json

namespace Json

/-- Python truthiness is not needed; only the shape test used by
`isinstance(data, list)` in `extract_links`. -/
def isArr : Json → Bool
  | .arr _ => true
  | _ => false

/-- Shape test for `isinstance(item, dict)`. -/
def isObj : Json → Bool
  | .obj _ => true
  | _ => false

end Json

/-- Python dict membership `k in d` (the parser keeps keys unique). -/
def dictHasKey (d : List (String × Json)) (k : String) : Bool :=
  d.any (fun p => p.1 == k)

/-- Python `d.get(k, default)` / `d[k]` on a unique-key association list. -/
def dictGetD (d : List (String × Json)) (k : String) (dflt : Json) : Json :=
  match d.find? (fun p => p.1 == k) with
  | some p => p.2
  | none => dflt

/-- Python `d[k] = v`: replace in place if the key exists, else append.
Used when the parser builds an object, mirroring dict insertion order. -/
def dictInsert (d : List (String × Json)) (k : String) (v : Json) :
    List (String × Json) :=
  if d.any (fun p => p.1 == k) then
    d.map (fun p => if p.1 == k then (k, v) else p)
  else
    d ++ [(k, v)]

/-- Does the character list `n` start the character list `h`? -/
def strStarts : List Char → List Char → Bool
  | [], _ => true
  | _ :: _, [] => false
  | a :: as, b :: bs => a == b && strStarts as bs

/-- Substring search on character lists (Python `n in h` on str). -/
def strIn (n : List Char) : List Char → Bool
  | [] => strStarts n []
  | c :: t => strStarts n (c :: t) || strIn n t

/-- Python string containment `needle in hay`. -/
def pyIn (needle hay : String) : Bool :=
  strIn needle.toList hay.toList

/-- Python `s.lower()`.  Modelled per character with the ASCII case map
(every keyword and hint in `store.py` is ASCII). -/
def pyLower (s : String) : String :=
  String.mk (s.toList.map Char.toLower)

/-- Escaping done by `json.dumps` with `ensure_ascii=False` on one char. -/
def jsonEscapeChar (c : Char) : String :=
  if c == '"' then "\\\""
  else if c == '\\' then "\\\\"
  else if c == '\n' then "\\n"
  else if c == '\t' then "\\t"
  else if c == '\r' then "\\r"
  else if c.toNat == 8 then "\\b"
  else if c.toNat == 12 then "\\f"
  else if c.toNat < 32 then
    "\\u00" ++ String.mk [Nat.digitChar (c.toNat / 16), Nat.digitChar (c.toNat % 16)]
  else String.mk [c]

/-- String body escaping of `json.dumps(..., ensure_ascii=False)`. -/
def jsonEscape (s : String) : String :=
  String.join (s.toList.map jsonEscapeChar)

/-- The indentation prefix used by `json.dumps(..., indent=2)` at depth `lvl`. -/
def jsonIndent (lvl : Nat) : String :=
  String.mk (List.replicate (2 * lvl) ' ')

mutual

/-- Python `json.dumps(v, ensure_ascii=False, indent=2)` at nesting depth
`lvl` (the call sites in `store.py` always start at depth 0). -/
def dumpsAt : Json → Nat → String
  | .null, _ => "null"
  | .bool true, _ => "true"
  | .bool false, _ => "false"
  | .num n, _ => toString n
  | .str s, _ => "\"" ++ jsonEscape s ++ "\""
  | .arr [], _ => "[]"
  | .arr (x :: xs), lvl =>
      "[\n" ++ String.intercalate ",\n" (dumpsList (x :: xs) (lvl + 1)) ++
      "\n" ++ jsonIndent lvl ++ "]"
  | .obj [], _ => "\x7b\x7d"
  | .obj (p :: ps), lvl =>
      "\x7b\n" ++ String.intercalate ",\n" (dumpsFields (p :: ps) (lvl + 1)) ++
      "\n" ++ jsonIndent lvl ++ "\x7d"

/-- Serialized array elements, each on its own indented line. -/
def dumpsList : List Json → Nat → List String
  | [], _ => []
  | x :: xs, lvl => (jsonIndent lvl ++ dumpsAt x lvl) :: dumpsList xs lvl

/-- Serialized object entries, each on its own indented line. -/
def dumpsFields : List (String × Json) → Nat → List String
  | [], _ => []
  | (k, v) :: ps, lvl =>
      (jsonIndent lvl ++ "\"" ++ jsonEscape k ++ "\": " ++ dumpsAt v lvl) ::
      dumpsFields ps lvl

end

/-- Top-level `json.dumps(v, ensure_ascii=False, indent=2)`. -/
def dumps (v : Json) : String := dumpsAt v 0

mutual

/-- Python `repr` of a value that came out of `json.loads`. -/
def pyRepr : Json → String
  | .null => "None"
  | .bool true => "True"
  | .bool false => "False"
  | .num n => toString n
  | .str s =>
      "'" ++ String.join (s.toList.map (fun c =>
        if c == '\'' then "\\'" else if c == '\\' then "\\\\" else String.mk [c])) ++ "'"
  | .arr xs => "[" ++ String.intercalate ", " (pyReprList xs) ++ "]"
  | .obj ps => "\x7b" ++ String.intercalate ", " (pyReprFields ps) ++ "\x7d"

/-- Reprs of the elements of a list value. -/
def pyReprList : List Json → List String
  | [] => []
  | x :: xs => pyRepr x :: pyReprList xs

/-- Reprs of the entries of a dict value. -/
def pyReprFields : List (String × Json) → List String
  | [] => []
  | (k, v) :: ps => (pyRepr (.str k) ++ ": " ++ pyRepr v) :: pyReprFields ps

end

/-- Python `str` of a value that came out of `json.loads`, as interpolated
by an f-string: like `repr` except that a string stays bare. -/
def pyStr : Json → String
  | .str s => s
  | v => pyRepr v

/-- Whitespace skipping of the JSON grammar. -/
def skipWs : List Char → List Char
  | [] => []
  | c :: t => if c == ' ' || c == '\t' || c == '\n' || c == '\r' then skipWs t else c :: t

/-- Hex digit value, for string escapes of the form backslash-u. -/
def hexVal (c : Char) : Option Nat :=
  if c.isDigit then some (c.toNat - 48)
  else if 97 ≤ c.toNat && c.toNat ≤ 102 then some (c.toNat - 87)
  else if 65 ≤ c.toNat && c.toNat ≤ 70 then some (c.toNat - 55)
  else none

/-- Body of a JSON string literal (the opening quote already consumed):
returns the decoded characters and the input after the closing quote.  Fuel
only bounds recursion depth and always exceeds the input length. -/
def parseStrBody : Nat → List Char → Option (List Char × List Char)
  | 0, _ => none
  | _, [] => none
  | Nat.succ fuel, c :: t =>
    if c == '"' then some ([], t)
    else if c == '\\' then
      match t with
      | [] => none
      | e :: t2 =>
        if e == '"' then (parseStrBody fuel t2).map (fun r => ('"' :: r.1, r.2))
        else if e == '\\' then (parseStrBody fuel t2).map (fun r => ('\\' :: r.1, r.2))
        else if e == '/' then (parseStrBody fuel t2).map (fun r => ('/' :: r.1, r.2))
        else if e == 'n' then (parseStrBody fuel t2).map (fun r => ('\n' :: r.1, r.2))
        else if e == 't' then (parseStrBody fuel t2).map (fun r => ('\t' :: r.1, r.2))
        else if e == 'r' then (parseStrBody fuel t2).map (fun r => ('\r' :: r.1, r.2))
        else if e == 'b' then (parseStrBody fuel t2).map (fun r => (Char.ofNat 8 :: r.1, r.2))
        else if e == 'f' then (parseStrBody fuel t2).map (fun r => (Char.ofNat 12 :: r.1, r.2))
        else if e == 'u' then
          match t2 with
          | h1 :: h2 :: h3 :: h4 :: t3 =>
            match hexVal h1, hexVal h2, hexVal h3, hexVal h4 with
            | some a, some b, some c2, some d =>
              (parseStrBody fuel t3).map
                (fun r => (Char.ofNat (((a * 16 + b) * 16 + c2) * 16 + d) :: r.1, r.2))
            | _, _, _, _ => none
          | _ => none
        else none
    else (parseStrBody fuel t).map (fun r => (c :: r.1, r.2))

/-- Digit accumulator for integer literals. -/
def parseNatAux (acc : Nat) : List Char → Nat × List Char
  | [] => (acc, [])
  | c :: t => if c.isDigit then parseNatAux (acc * 10 + (c.toNat - 48)) t else (acc, c :: t)

/-- One or more decimal digits. -/
def parseNat : List Char → Option (Nat × List Char)
  | [] => none
  | c :: t => if c.isDigit then some (parseNatAux (c.toNat - 48) t) else none

/-- An unsigned JSON number.  The model covers integers only: a fraction or
exponent part makes the model parse fail (no claim involves floats). -/
def parseNum (s : List Char) : Option (Nat × List Char) :=
  match parseNat s with
  | none => none
  | some (n, rest) =>
    match rest with
    | c :: _ => if c == '.' || c == 'e' || c == 'E' then none else some (n, rest)
    | [] => some (n, [])

/-- Consume an expected literal tail such as 'ull' after 'n'. -/
def expectChars : List Char → List Char → Option (List Char)
  | [], s => some s
  | _ :: _, [] => none
  | c :: cs, d :: t => if c == d then expectChars cs t else none

mutual

/-- Fueled recursive-descent parse of one JSON value, modelling
`json.loads`.  Fuel only bounds recursion depth; `jsonLoads` passes more
fuel than any input can consume. -/
def parseVal : Nat → List Char → Option (Json × List Char)
  | 0, _ => none
  | Nat.succ fuel, s0 =>
    match skipWs s0 with
    | [] => none
    | c :: t =>
      if c == '"' then
        (parseStrBody (Nat.succ fuel) t).map (fun r => (Json.str (String.mk r.1), r.2))
      else if c == '[' then
        match skipWs t with
        | ']' :: t2 => some (Json.arr [], t2)
        | t2 => (parseElems fuel t2).map (fun r => (Json.arr r.1, r.2))
      else if c == '\x7b' then
        match skipWs t with
        | '\x7d' :: t2 => some (Json.obj [], t2)
        | t2 => (parseMembers fuel [] t2).map (fun r => (Json.obj r.1, r.2))
      else if c == 'n' then (expectChars ['u', 'l', 'l'] t).map (fun r => (Json.null, r))
      else if c == 't' then (expectChars ['r', 'u', 'e'] t).map (fun r => (Json.bool true, r))
      else if c == 'f' then (expectChars ['a', 'l', 's', 'e'] t).map (fun r => (Json.bool false, r))
      else if c == '-' then (parseNum t).map (fun r => (Json.num (-(r.1 : Int)), r.2))
      else if c.isDigit then (parseNum (c :: t)).map (fun r => (Json.num (r.1 : Int), r.2))
      else none

/-- Elements of a non-empty JSON array, up to and including the closing
bracket. -/
def parseElems : Nat → List Char → Option (List Json × List Char)
  | 0, _ => none
  | Nat.succ fuel, s =>
    match parseVal fuel s with
    | none => none
    | some (v, rest) =>
      match skipWs rest with
      | ',' :: t => (parseElems fuel t).map (fun r => (v :: r.1, r.2))
      | ']' :: t => some ([v], t)
      | _ => none

/-- Members of a non-empty JSON object, up to and including the closing
brace; duplicate keys overwrite in place as Python dict insertion does. -/
def parseMembers : Nat → List (String × Json) → List Char →
    Option (List (String × Json) × List Char)
  | 0, _, _ => none
  | Nat.succ fuel, acc, s =>
    match skipWs s with
    | '"' :: t =>
      match parseStrBody (Nat.succ fuel) t with
      | none => none
      | some (kcs, rest) =>
        match skipWs rest with
        | ':' :: t2 =>
          match parseVal fuel t2 with
          | none => none
          | some (v, rest2) =>
            match skipWs rest2 with
            | ',' :: t3 => parseMembers fuel (dictInsert acc (String.mk kcs) v) t3
            | '\x7d' :: t3 => some (dictInsert acc (String.mk kcs) v, t3)
            | _ => none
        | _ => none
    | _ => none

end

/-- Python `json.loads`: parse one value, then require only whitespace to
remain. -/
def jsonLoads (s : String) : Option Json :=
  match parseVal (8 * (s.length + 1)) s.toList with
  | some (v, rest) => if (skipWs rest).isEmpty then some v else none
  | none => none


/-!
Portfolio store (`load_portfolio` / `reload_portfolio`).

The filesystem is a parameter: `FileState.absent` models a failing
`PORTFOLIO_PATH.stat()`, and `FileState.present mtime parsed` a file with
the given modification time whose read-and-parse outcome is `parsed`
(`none` models an I/O error or `json.load` raising).  The try/except of
`load_portfolio` catches every such failure and yields the empty dict, so
the model is a total function: the result records the returned document,
the cache afterwards, and whether the file body was read.
-/

/-- The module-level `_portfolio_cache` dict. -/
structure Cache where
  data : Option Json
  last_modified : Nat

/-- The on-disk state of `portfolio.json` at call time. -/
inductive FileState where
  | absent : FileState
  | present : Nat → Option Json → FileState

/-- Outcome of one `load_portfolio()` call. -/
structure LoadResult where
  doc : Json
  cache : Cache
  didRead : Bool

/-- The function `load_portfolio` of `store.py`: stat the file, reload when
nothing is cached yet or the mtime strictly exceeds the cached one, and
catch every failure by returning the empty dict (the cache keeps its prior
contents because the failing `json.load` raises before any assignment). -/
def load_portfolio (fs : FileState) (c : Cache) : LoadResult :=
  match fs with
  | .absent => ⟨Json.obj [], c, false⟩
  | .present mtime parsed =>
    if c.data.isNone || decide (c.last_modified < mtime) then
      match parsed with
      | none => ⟨Json.obj [], c, true⟩
      | some d => ⟨d, ⟨some d, mtime⟩, true⟩
    else
      ⟨c.data.getD (Json.obj []), c, false⟩

/-- The function `reload_portfolio` of `store.py`: reset the cached
timestamp to the sentinel 0 and call `load_portfolio`. -/
def reload_portfolio (fs : FileState) (c : Cache) : LoadResult :=
  load_portfolio fs ⟨c.data, 0⟩

/-!
Keyword router (`keyword_context`).

The router is parametrized by the dict the call to `load_portfolio`
returned (the claims quantify over the document state).
-/

/-- Keywords of the projects branch of `keyword_context`. -/
def projectsKeywords : List String := ["project", "built", "develop"]

/-- Keywords of the skills branch. -/
def skillsKeywords : List String := ["stack", "skill", "tech", "language", "framework"]

/-- Keywords of the experience branch. -/
def experienceKeywords : List String := ["work", "job", "company", "experience", "role"]

/-- Keywords of the education branch. -/
def educationKeywords : List String := ["degree", "university", "education", "study", "college"]

/-- Keywords of the certifications branch. -/
def certificationsKeywords : List String := ["cert", "certification", "certified"]

/-- Python `any(word in q for word in kws)`. -/
def matchesAny (kws : List String) (q : String) : Bool :=
  kws.any (fun w => pyIn w q)

/-- The function `keyword_context` of `store.py`: five if-branches in
source order, each taken when the section hint equals the branch name or a
branch keyword occurs in the lowercased question; otherwise the whole
document is serialized. -/
def keyword_context (pd : List (String × Json)) (sec : Option String)
    (question : String) : String :=
  let q := pyLower question
  if sec == some "PROJECTS" || matchesAny projectsKeywords q then
    dumps (dictGetD pd "projects" (Json.arr []))
  else if sec == some "SKILLS" || matchesAny skillsKeywords q then
    dumps (dictGetD pd "skills" (Json.arr []))
  else if sec == some "EXPERIENCE" || matchesAny experienceKeywords q then
    dumps (dictGetD pd "experience" (Json.arr []))
  else if sec == some "EDUCATION" || matchesAny educationKeywords q then
    dumps (dictGetD pd "education" (Json.arr []))
  else if sec == some "CERTIFICATIONS" || matchesAny certificationsKeywords q then
    dumps (dictGetD pd "certifications" (Json.arr []))
  else
    dumps (Json.obj pd)

/-- The five keyword sets paired with the section each branch serves, in
the priority order the if-chain fixes. -/
def sectionTable : List (List String × String) :=
  [(projectsKeywords, "projects"), (skillsKeywords, "skills"),
   (experienceKeywords, "experience"), (educationKeywords, "education"),
   (certificationsKeywords, "certifications")]

/-- The sections whose keyword set matches the question, listed in
priority order.  Defined from the keyword sets alone, independently of the
if-chain of `keyword_context`, so that relating the two is meaningful. -/
def matchedSections (question : String) : List String :=
  (sectionTable.filter (fun p => matchesAny p.1 (pyLower question))).map (fun p => p.2)

/-!
Link extractor (`extract_links`).
-/

/-- One element of the list `extract_links` builds.  The source stores the
raw dict values, so both fields are JSON values, not necessarily strings. -/
structure Link where
  label : Json
  url : Json

/-- Links contributed by one item of the parsed list: the repo link, then
the demo link, then the certification-style link, exactly as the three
`if` statements of the loop body append them.  Non-dict items contribute
nothing. -/
def itemLinks (item : Json) : List Link :=
  match item with
  | .obj fields =>
    (if dictHasKey fields "repo" then
      [⟨Json.str (pyStr (dictGetD fields "name" (Json.str "Project")) ++ " - GitHub"),
        dictGetD fields "repo" Json.null⟩]
     else []) ++
    (if dictHasKey fields "demo" then
      [⟨Json.str (pyStr (dictGetD fields "name" (Json.str "Project")) ++ " - Live Demo"),
        dictGetD fields "demo" Json.null⟩]
     else []) ++
    (if dictHasKey fields "url" && dictHasKey fields "name" then
      [⟨dictGetD fields "name" Json.null, dictGetD fields "url" Json.null⟩]
     else [])
  | _ => []

/-- The function `extract_links` of `store.py`: parse the context, walk a
list value appending links per item, and return the first 4; any parse
failure or non-list value yields the empty list. -/
def extract_links (context : String) : List Link :=
  match jsonLoads context with
  | none => []
  | some data =>
    let links := match data with
      | .arr items => items.flatMap itemLinks
      | _ => []
    links.take 4

/-!
Dense retriever wrapper (`dense_context`) and context selector
(`select_context`).

The expensive externals (sentence-transformers, FAISS) are parameters of a
`DenseEnv`: whether each artifact file exists, whether `DenseRetriever()`
raises (`construct = none`) or yields an instance, and what
`retriever.search` does (`none` models a raised exception, caught and
turned into the empty string).  The module-level `_dense_retriever` is the
`Option Retriever` state threaded through calls.
-/

/-- A successfully constructed `DenseRetriever`: for the state-machine
claims only its chunk metadata matters. -/
structure Retriever where
  chunks : List (String × String)

/-- Ambient conditions of one `dense_context` call. -/
structure DenseEnv where
  indexExists : Bool
  metaExists : Bool
  construct : Option Retriever
  searchOutcome : Retriever → String → Option String

/-- Outcome of one `dense_context` call: the returned string, the
`_dense_retriever` global afterwards, whether `DenseRetriever()` was
entered, and whether `search` was invoked. -/
structure DenseCall where
  output : String
  state : Option Retriever
  constructAttempted : Bool
  searchCalled : Bool

/-- The function `dense_context` of `store.py`: return "" when either
artifact file is missing; construct the retriever when the global is still
`None`, catching a constructor failure as ""; then search, catching a
search failure as "". -/
def dense_context (env : DenseEnv) (s : Option Retriever) (question : String) :
    DenseCall :=
  if !env.indexExists || !env.metaExists then ⟨"", s, false, false⟩
  else
    match s with
    | none =>
      match env.construct with
      | none => ⟨"", none, true, false⟩
      | some r =>
        match env.searchOutcome r question with
        | none => ⟨"", some r, true, true⟩
        | some out => ⟨out, some r, true, true⟩
    | some r =>
      match env.searchOutcome r question with
      | none => ⟨"", some r, false, true⟩
      | some out => ⟨out, some r, false, true⟩

/-- Outcome of one `select_context` call. -/
structure SelectCall where
  output : String
  state : Option Retriever

/-- The function `select_context` of `store.py`: when the `ENABLE_RAG`
environment variable (default "false") lowercases to "true", try
`dense_context` and use a non-empty result; otherwise fall back to
`keyword_context`.  `ragFlag = none` models an unset variable. -/
def select_context (ragFlag : Option String) (env : DenseEnv)
    (s : Option Retriever) (pd : List (String × Json)) (sec : Option String)
    (question : String) : SelectCall :=
  if pyLower (ragFlag.getD "false") == "true" then
    let call := dense_context env s question
    if call.output != "" then ⟨call.output, call.state⟩
    else ⟨keyword_context pd sec question, call.state⟩
  else ⟨keyword_context pd sec question, s⟩

/-!
The chunk-selection loop of `DenseRetriever.search` (claim C10).

FAISS returns one row of `top_k` integer indices, padded with -1 when the
index holds fewer vectors.  The loop keeps an index when
`idx < len(self.chunks)` and reads `self.chunks[idx]` — Python indexing,
where a negative index counts from the end and raises IndexError below
`-len`.  `selectedChunks` returns `none` when the loop would raise.
-/

/-- Python list indexing `xs[idx]`, `none` modelling IndexError. -/
def pyGetItem (xs : List (String × String)) (idx : Int) : Option (String × String) :=
  if 0 ≤ idx then xs.get? idx.toNat
  else if idx + (xs.length : Int) < 0 then none
  else xs.get? (idx + (xs.length : Int)).toNat

/-- The loop over `indices[0]` in `DenseRetriever.search`: texts of the
chunks at the kept indices, in row order. -/
def selectedChunks (chunks : List (String × String)) : List Int → Option (List String)
  | [] => some []
  | idx :: rest =>
    if idx < (chunks.length : Int) then
      match pyGetItem chunks idx with
      | none => none
      | some c => (selectedChunks chunks rest).map (fun l => c.2 :: l)
    else
      selectedChunks chunks rest

/-- The return value of `DenseRetriever.search` given the FAISS index row:
the kept chunk texts joined by blank lines (`none` when the loop raises). -/
def searchJoin (chunks : List (String × String)) (row : List Int) : Option String :=
  (selectedChunks chunks row).map (String.intercalate "\n\n")

/-!
Concrete fixtures shared by several theorems.
-/

/-- A context that parses as a list of two records with identical url
values (the brace characters are written with hex escapes). -/
def dupUrlContext : String :=
  "[\x7b\"name\": \"A\", \"url\": \"u\"\x7d, \x7b\"name\": \"B\", \"url\": \"u\"\x7d]"

/-- An environment whose artifact files exist but whose retriever
construction raises (e.g. a corrupt index). -/
def envConstructFails : DenseEnv :=
  ⟨true, true, none, fun _ _ => some "ctx"⟩

/-- An environment whose index artifact file is absent. -/
def envNoArtifacts : DenseEnv :=
  ⟨false, true, none, fun _ _ => none⟩

/-- A two-section document used as a concrete document state. -/
def pdEx : List (String × Json) :=
  [("projects", Json.arr [Json.obj [("name", Json.str "P")]]),
   ("education", Json.arr [Json.obj [("degree", Json.str "BS")]])]

/-- A cached document distinct from `freshDoc`. -/
def staleDoc : Json := Json.obj [("about", Json.str "old")]

/-- An on-disk document distinct from `staleDoc`. -/
def freshDoc : Json := Json.obj [("about", Json.str "new")]

/-- Claim C7: for every failure of the disk read or parse during a
`load_portfolio()` call — a missing file (failing stat) or a file whose
read/parse raises while a reload is triggered — the call returns the empty
document; the model is a total function, so no exception reaches the
caller. -/
theorem load_portfolio_failure_returns_empty (fs : FileState) (c : Cache)
    (h : fs = .absent ∨
      ∃ m, fs = .present m none ∧ (c.data = none ∨ c.last_modified < m)) :
    (load_portfolio fs c).doc = Json.obj [] := by
  rcases h with h | ⟨m, hfs, hc⟩
  · subst h; rfl
  · subst hfs
    rcases hc with hd | hm
    · simp [load_portfolio, hd]
    · simp [load_portfolio, hm]

/-- Witness for C7 at the concrete input of an absent file and an empty
cache. -/
theorem load_portfolio_failure_returns_empty_witness :
    (load_portfolio .absent ⟨none, 0⟩).doc = Json.obj [] :=
  load_portfolio_failure_returns_empty .absent ⟨none, 0⟩ (Or.inl rfl)

/-- Claim C5, counterexample: with a present but malformed file and a cold
cache, both of two consecutive `load_portfolio()` calls read the disk (the
failed first load caches nothing, so the second call does not hit the
cache), refuting "performs only one disk read". -/
theorem load_twice_counterexample :
    (load_portfolio (.present 5 none) ⟨none, 0⟩).didRead = true ∧
    (load_portfolio (.present 5 none)
        (load_portfolio (.present 5 none) ⟨none, 0⟩).cache).didRead = true :=
  ⟨rfl, rfl⟩

/-- Claim C5 as amended: when the file's content parses successfully,
calling `load_portfolio()` twice with no intervening mtime change returns
the same document both times and the second call performs no disk read. -/
theorem load_twice_cached (m : Nat) (d : Json) (c : Cache) :
    (load_portfolio (.present m (some d))
        (load_portfolio (.present m (some d)) c).cache).doc =
      (load_portfolio (.present m (some d)) c).doc ∧
    (load_portfolio (.present m (some d))
        (load_portfolio (.present m (some d)) c).cache).didRead = false := by
  by_cases h : (c.data.isNone || decide (c.last_modified < m)) = true
  · simp [load_portfolio, h, Nat.lt_irrefl]
  · simp [load_portfolio, h]

/-- Claim C6, counterexample: for a file whose modification time is the
epoch sentinel 0, `reload_portfolio()` does not re-read the file — the
reset timestamp 0 is not strictly exceeded — so the stale cached document
is returned instead of the on-disk content, and the next
`load_portfolio()` does not re-read either. -/
theorem reload_counterexample :
    (reload_portfolio (.present 0 (some freshDoc)) ⟨some staleDoc, 7⟩).didRead = false ∧
    pyRepr (reload_portfolio (.present 0 (some freshDoc)) ⟨some staleDoc, 7⟩).doc ≠
      pyRepr freshDoc ∧
    (load_portfolio (.present 0 (some freshDoc))
        (reload_portfolio (.present 0 (some freshDoc)) ⟨some staleDoc, 7⟩).cache).didRead =
      false := by
  refine ⟨rfl, ?_, rfl⟩
  show pyRepr staleDoc ≠ pyRepr freshDoc
  simp only [staleDoc, freshDoc, pyRepr, pyReprFields, pyReprList, String.intercalate]
  decide

/-- Claim C6 as amended: `reload_portfolio()` resets the cached timestamp
to the sentinel 0, so whenever the file's modification time is strictly
positive (every mtime except the epoch itself) the call re-reads the file
from disk and returns and caches the on-disk content, for every prior
cache state. -/
theorem reload_portfolio_rereads (m : Nat) (d : Json) (c : Cache) (h : 0 < m) :
    (reload_portfolio (.present m (some d)) c).doc = d ∧
    (reload_portfolio (.present m (some d)) c).didRead = true ∧
    (reload_portfolio (.present m (some d)) c).cache = ⟨some d, m⟩ := by
  simp [reload_portfolio, load_portfolio, h]

/-- Witness for C6 as amended, at mtime 1 over a warm non-stale cache. -/
theorem reload_portfolio_rereads_witness :
    (reload_portfolio (.present 1 (some freshDoc)) ⟨some freshDoc, 1⟩).doc = freshDoc :=
  (reload_portfolio_rereads 1 freshDoc ⟨some freshDoc, 1⟩ (by decide)).1

/-- Claim C1, counterexample: on a context holding two records with the
same url value "u", `extract_links` returns two entries for that URL, not
one — the source never deduplicates, it only truncates to 4. -/
theorem extract_links_counterexample :
    (extract_links dupUrlContext).length = 2 ∧
    (extract_links dupUrlContext).map (fun l => pyStr l.url) = ["u", "u"] :=
  ⟨rfl, rfl⟩

/-- Claim C1 as amended: `extract_links` keeps the produced links in
first-seen order without deduplicating by url and returns at most 4
entries; in particular the two identical-url records of `dupUrlContext`
yield one entry each. -/
theorem extract_links_at_most_four (context : String) :
    (extract_links context).length ≤ 4 ∧
    (∀ items, jsonLoads context = some (Json.arr items) →
      extract_links context = (items.flatMap itemLinks).take 4) ∧
    (extract_links dupUrlContext).map (fun l => pyStr l.url) = ["u", "u"] := by
  refine ⟨?_, ?_, rfl⟩
  · unfold extract_links
    cases jsonLoads context with
    | none => simp
    | some d => cases d <;> simp [List.length_take]
  · intro items h
    simp [extract_links, h]

/-- Witness for C1 as amended, instantiating the parse hypothesis at the
duplicate-url context itself. -/
theorem extract_links_at_most_four_witness :
    extract_links dupUrlContext =
      ([Json.obj [("name", Json.str "A"), ("url", Json.str "u")],
        Json.obj [("name", Json.str "B"), ("url", Json.str "u")]].flatMap itemLinks).take 4 :=
  (extract_links_at_most_four dupUrlContext).2.1
    [Json.obj [("name", Json.str "A"), ("url", Json.str "u")],
     Json.obj [("name", Json.str "B"), ("url", Json.str "u")]] rfl

/-- Claim C8: for every context string that does not parse as JSON, or
that parses to a non-list value (the full-document dict fallback, dense
plain text, or any scalar), `extract_links` returns the empty list; the
model is a total function, so no exception reaches the caller. -/
theorem extract_links_non_list_empty (context : String)
    (h : jsonLoads context = none ∨
      ∀ d, jsonLoads context = some d → d.isArr = false) :
    extract_links context = [] := by
  unfold extract_links
  rcases h with h | h
  · rw [h]
  · cases hj : jsonLoads context with
    | none => rfl
    | some d =>
      have hd := h d hj
      cases d <;> first
        | rfl
        | (exfalso; simp [Json.isArr] at hd)

/-- Witness for C8 at the concrete non-JSON context "plain text". -/
theorem extract_links_non_list_empty_witness :
    extract_links "plain text" = [] :=
  extract_links_non_list_empty "plain text" (Or.inl rfl)

/-- Claim C2, counterexample: with the explicit hint EDUCATION but a
question containing the projects keyword "project", `keyword_context`
returns the serialized projects section of `pdEx`, which differs from the
serialized education section — the keyword scan of an earlier branch
overrides the later-section hint. -/
theorem education_hint_counterexample :
    keyword_context pdEx (some "EDUCATION") "tell me about your project" =
      dumps (Json.arr [Json.obj [("name", Json.str "P")]]) ∧
    dumps (Json.arr [Json.obj [("name", Json.str "P")]]) ≠
      dumps (Json.arr [Json.obj [("degree", Json.str "BS")]]) := by
  constructor
  · show dumps (dictGetD pdEx "projects" (Json.arr [])) =
      dumps (Json.arr [Json.obj [("name", Json.str "P")]])
    rfl
  simp only [dumps, dumpsAt, dumpsList, dumpsFields, jsonIndent, jsonEscape,
    jsonEscapeChar, String.intercalate]
  decide

/-- Claim C2 as amended: the explicit hint EDUCATION returns the education
section's serialized content provided the question matches no keyword of
an earlier-priority branch (projects, skills, experience). -/
theorem education_hint_returns_education (pd : List (String × Json)) (q : String)
    (h1 : matchesAny projectsKeywords (pyLower q) = false)
    (h2 : matchesAny skillsKeywords (pyLower q) = false)
    (h3 : matchesAny experienceKeywords (pyLower q) = false) :
    keyword_context pd (some "EDUCATION") q =
      dumps (dictGetD pd "education" (Json.arr [])) := by
  simp [keyword_context, h1, h2, h3]

/-- Witness for C2 as amended at a question with no routing keywords. -/
theorem education_hint_returns_education_witness :
    keyword_context pdEx (some "EDUCATION") "hello" =
      dumps (dictGetD pdEx "education" (Json.arr [])) :=
  education_hint_returns_education pdEx "hello" (by decide) (by decide) (by decide)

/-- Claim C9: with no section hint, a question matching the keyword sets
of two or more sections is routed to the section that comes first in the
fixed priority order projects, skills, experience, education,
certifications (the head of `matchedSections`); in particular the question
"what skills and projects have you built", which matches both the projects
and the skills keywords, is routed to the projects section. -/
theorem keyword_priority (pd : List (String × Json)) (q : String)
    (h : 2 ≤ (matchedSections q).length) :
    keyword_context pd none q =
      dumps (dictGetD pd ((matchedSections q).headI) (Json.arr [])) ∧
    keyword_context pd none "what skills and projects have you built" =
      dumps (dictGetD pd "projects" (Json.arr [])) := by
  constructor
  · by_cases h1 : matchesAny projectsKeywords (pyLower q) = true
    · simp [keyword_context, matchedSections, sectionTable, h1]
    · by_cases h2 : matchesAny skillsKeywords (pyLower q) = true
      · simp [keyword_context, matchedSections, sectionTable, h1, h2]
      · by_cases h3 : matchesAny experienceKeywords (pyLower q) = true
        · simp [keyword_context, matchedSections, sectionTable, h1, h2, h3]
        · by_cases h4 : matchesAny educationKeywords (pyLower q) = true
          · by_cases h5 : matchesAny certificationsKeywords (pyLower q) = true
            · simp [keyword_context, matchedSections, sectionTable, h1, h2, h3, h4, h5]
            · exfalso
              simp [matchedSections, sectionTable, h1, h2, h3, h4, h5] at h
          · by_cases h5 : matchesAny certificationsKeywords (pyLower q) = true
            · exfalso
              simp [matchedSections, sectionTable, h1, h2, h3, h4, h5] at h
            · exfalso
              simp [matchedSections, sectionTable, h1, h2, h3, h4, h5] at h
  · show dumps (dictGetD pd "projects" (Json.arr [])) =
      dumps (dictGetD pd "projects" (Json.arr []))
    rfl

/-- Witness for C9 at the two-section question of the spec, over `pdEx`. -/
theorem keyword_priority_witness :
    keyword_context pdEx none "what skills and projects have you built" =
      dumps (dictGetD pdEx "projects" (Json.arr [])) :=
  (keyword_priority pdEx "what skills and projects have you built" (by decide)).2

/-- Claim C3, counterexample: with artifacts present and a failing
constructor, the first `dense_context` call attempts construction and
leaves the module-level retriever at None, so the second call attempts
construction again — the retriever is not marked permanently unavailable. -/
theorem dense_retry_counterexample :
    (dense_context envConstructFails none "q").constructAttempted = true ∧
    (dense_context envConstructFails none "q").state = none ∧
    (dense_context envConstructFails
        (dense_context envConstructFails none "q").state "q").constructAttempted = true :=
  ⟨rfl, rfl, rfl⟩

/-- Claim C3 as amended: while `_dense_retriever` is None and both
artifact files exist, every `dense_context` call re-enters the
`DenseRetriever` constructor; a failing construction returns the empty
string, leaves the state at None and never calls `search` (so the next
call constructs again); once a retriever instance is stored, construction
is never attempted again; and `search` runs only when an instance exists
after construction. -/
theorem dense_context_no_permanent_unavailable (env : DenseEnv) (q : String) :
    (env.indexExists = true → env.metaExists = true → env.construct = none →
      dense_context env none q = ⟨"", none, true, false⟩) ∧
    (∀ r : Retriever, (dense_context env (some r) q).constructAttempted = false) ∧
    (∀ s : Option Retriever, (dense_context env s q).searchCalled = true →
      (dense_context env s q).state.isSome = true) := by
  obtain ⟨ie, me, co, so⟩ := env
  refine ⟨?_, ?_, ?_⟩
  · intro hi hm hc
    subst hi; subst hm; subst hc
    rfl
  · intro r
    cases ie with
    | false => rfl
    | true =>
      cases me with
      | false => rfl
      | true => cases hso : so r q <;> simp [dense_context, hso]
  · intro s h
    cases ie with
    | false => exact Bool.noConfusion h
    | true =>
      cases me with
      | false => exact Bool.noConfusion h
      | true =>
        cases s with
        | some r => cases hso : so r q <;> simp [dense_context, hso]
        | none =>
          cases co with
          | none => exact Bool.noConfusion h
          | some r => cases hso : so r q <;> simp [dense_context, hso]

/-- Witness for C3 as amended, at the failing-constructor environment. -/
theorem dense_context_no_permanent_unavailable_witness :
    dense_context envConstructFails none "q" = ⟨"", none, true, false⟩ :=
  (dense_context_no_permanent_unavailable envConstructFails "q").1 rfl rfl rfl

/-- Claim C4: `select_context` returns the dense result exactly when the
flag lowercases to "true" and `dense_context` returned a non-empty string,
and the keyword router's result in every other case; consequently, with
the flag enabled but an artifact file absent, its output equals the output
of the flag-disabled (unset variable) case on the same inputs. -/
theorem select_context_precedence (ragFlag : Option String) (env : DenseEnv)
    (s : Option Retriever) (pd : List (String × Json)) (sec : Option String)
    (q : String) :
    ((select_context ragFlag env s pd sec q).output =
      if pyLower (ragFlag.getD "false") == "true" &&
          (dense_context env s q).output != "" then
        (dense_context env s q).output
      else
        keyword_context pd sec q) ∧
    ((env.indexExists = false ∨ env.metaExists = false) →
      (select_context ragFlag env s pd sec q).output =
        (select_context none env s pd sec q).output) := by
  constructor
  · by_cases hf : (pyLower (ragFlag.getD "false") == "true") = true
    · by_cases ho : ((dense_context env s q).output != "") = true
      · simp [select_context, hf, ho]
      · simp [select_context, hf, ho]
    · simp [select_context, hf]
  · intro hmiss
    have hempty : (dense_context env s q).output = "" := by
      obtain ⟨ie, me, co, so⟩ := env
      rcases hmiss with hm | hm <;> simp_all [dense_context]
    have hoff : pyLower "false" ≠ "true" := by decide
    by_cases hf : (pyLower (ragFlag.getD "false") == "true") = true
    · simp [select_context, hf, hempty, hoff]
    · simp [select_context, hf, hoff]

/-- Witness for C4 at a missing index artifact, flag "true" against flag
unset. -/
theorem select_context_precedence_witness :
    (select_context (some "true") envNoArtifacts none pdEx none "hi").output =
      (select_context none envNoArtifacts none pdEx none "hi").output :=
  (select_context_precedence (some "true") envNoArtifacts none pdEx none "hi").2
    (Or.inl rfl)

/-- Helper for C10: the element of a non-empty list at position
length - 1 is its last element. -/
theorem get?_last : (l : List (String × String)) → (h : l ≠ []) →
    l.get? (l.length - 1) = some (l.getLast h)
  | [], h => absurd rfl h
  | [_], _ => rfl
  | a :: b :: t, _ => by
    rw [List.getLast_cons_cons]
    exact get?_last (b :: t) (by simp)

/-- Helper for C10: indexing a non-empty Python list at -1 yields the last
element. -/
theorem pyGetItem_neg_one (chunks : List (String × String)) (h : chunks ≠ []) :
    pyGetItem chunks (-1) = some (chunks.getLast h) := by
  have hlen : 0 < chunks.length := List.length_pos.mpr h
  have h0 : ¬((0 : Int) ≤ -1) := by decide
  have h1 : ¬((-1 : Int) + (chunks.length : Int) < 0) := by omega
  have h2 : ((-1 : Int) + (chunks.length : Int)).toNat = chunks.length - 1 := by omega
  unfold pyGetItem
  rw [if_neg h0, if_neg h1, h2]
  exact get?_last chunks h

/-- Claim C10: the guard `idx < len(self.chunks)` in
`DenseRetriever.search` does not exclude negative indices, so when the
FAISS result row contains the padding index -1 and the chunk list is
non-empty, the loop keeps that slot and Python negative indexing appends
the text of the LAST chunk at that position, instead of skipping the
slot. -/
theorem search_keeps_padding_index (chunks : List (String × String))
    (h : chunks ≠ []) (rest : List Int) :
    selectedChunks chunks ((-1) :: rest) =
      (selectedChunks chunks rest).map (fun l => (chunks.getLast h).2 :: l) := by
  have hlt : ((-1 : Int) < (chunks.length : Int)) := by
    have := List.length_pos.mpr h
    omega
  simp only [selectedChunks]
  rw [if_pos hlt, pyGetItem_neg_one chunks h]

/-- Witness for C10: a two-chunk metadata list and the FAISS row [-1, 0];
the -1 slot contributes the text of the last chunk, "tb". -/
theorem search_keeps_padding_index_witness :
    selectedChunks [("a", "ta"), ("b", "tb")] [-1, 0] = some ["tb", "ta"] := by
  rw [search_keeps_padding_index [("a", "ta"), ("b", "tb")] (by simp) [0]]
  rfl
